import Mathlib

/-
Shallow embedding of the page-count estimation and stabilization logic of
the tiptap-pagination-plus extension.

The repository holds several near-duplicate variants of the same extension.
The ones relevant here are embedded in separate namespaces:

 - PaginationV0  : the first variant in src/unnamed/part_001
                   (calculatePageCountFromContent, lines 203-227);
 - PaginationV1  : the window.__pp_state variant in src/unnamed/part_001
                   (MAX_PAGES = 100, MAX_UPDATES = 10, overflow tolerance 10,
                   calculatePageCount lines 1270-1394, plugin view update
                   lines 1667-1704);
 - PaginationV2  : the second window.__pp_state variant in src/unnamed/part_001
                   (MAX_PAGES = 500, MAX_UPDATES = 15, overflow tolerance 20,
                   calculatePageCount lines 2363-2529);
 - PaginationSrc : the debug variant in src/src/PaginationPlus.ts
                   (calculatePageCount lines 230-356);
 - PaginationCmd : the updateHeaderContent / updateFooterContent commands,
                   identical in src/src/PaginationPlus.ts (lines 892-939) and
                   src/unnamed/part_001 (lines 1883-1930).

Heights are modelled as rationals (DOM pixel measurements are JS doubles;
all arithmetic performed on them here is ring arithmetic, comparison, and
floor/ceil, which the rationals model exactly on the values of interest).
Page counts are integers.  DOM reads are abstracted into small view types
carrying exactly the quantities the source functions measure; the mutable
state object window.__pp_state is threaded explicitly.
-/

/-- Page configuration fields read by the estimators.  These are the
geometry fields of PaginationPlusOptions; the purely visual fields
(colors, text templates) are omitted because no estimator reads them. -/
structure PageOpts where
  pageHeight : ℚ
  pageWidth : ℚ
  pageGap : ℚ
  marginTop : ℚ
  marginBottom : ℚ
  contentMarginTop : ℚ
  contentMarginBottom : ℚ
deriving DecidableEq

/-- Header reservation: contentMarginTop + marginTop + headerHeight
(the local _pageHeaderHeight computed identically in every variant). -/
def pageHeaderReserved (o : PageOpts) (headerHeight : ℚ) : ℚ :=
  o.contentMarginTop + o.marginTop + headerHeight

/-- Footer reservation: contentMarginBottom + marginBottom + footerHeight
(the local _pageFooterHeight computed identically in every variant). -/
def pageFooterReserved (o : PageOpts) (footerHeight : ℚ) : ℚ :=
  o.contentMarginBottom + o.marginBottom + footerHeight

/-- Per-page content area height: pageHeight minus both reservations
(the local pageContentAreaHeight / pageContentHeight of the variants). -/
def contentAreaHeight (o : PageOpts) (headerHeight footerHeight : ℚ) : ℚ :=
  o.pageHeight - pageHeaderReserved o headerHeight - pageFooterReserved o footerHeight

/-- The default options of every variant, restricted to the geometry fields:
pageHeight 800, pageWidth 789, pageGap 50, margins 20/20, content margins
10/10. -/
def cfg800 : PageOpts :=
  { pageHeight := 800, pageWidth := 789, pageGap := 50
    marginTop := 20, marginBottom := 20
    contentMarginTop := 10, contentMarginBottom := 10 }

/-- A degenerate configuration: pageHeight 90 with reservations summing to
50, so the content area height is 40, at most the 50 unit floor. -/
def cfgDegenerate : PageOpts :=
  { pageHeight := 90, pageWidth := 789, pageGap := 50
    marginTop := 20, marginBottom := 20
    contentMarginTop := 5, contentMarginBottom := 5 }

/-- The shared mutable stabilization state window.__pp_state of the
part_001 variants: pageCount, locked, updateCount, and the dimension
signature (a string of the form width-height in the source, modelled as
the pair of numbers it is built from; the initial empty string is none). -/
structure PPState where
  pageCount : ℤ
  locked : Bool
  updateCount : ℕ
  lastDimensions : Option (ℚ × ℚ)
deriving DecidableEq

/-- The state produced by getState on first access and by resetState:
pageCount 1, unlocked, zero update count, empty dimension signature. -/
def initState : PPState :=
  { pageCount := 1, locked := false, updateCount := 0, lastDimensions := none }

namespace PaginationV0

/-- calculatePageCountFromContent (src/unnamed/part_001 lines 203-227):
division of measured content height by the per-page content area, with a
floor guard returning 1 when the content area is at most 50. -/
def calculatePageCountFromContent (contentHeight : ℚ) (o : PageOpts)
    (headerHeight footerHeight : ℚ) : ℤ :=
  if contentAreaHeight o headerHeight footerHeight ≤ 50 then 1
  else max 1 ⌈contentHeight / contentAreaHeight o headerHeight footerHeight⌉

end PaginationV0

namespace PaginationV1

/-- MAX_PAGES of the first window.__pp_state variant (part_001 line 1170). -/
def MAX_PAGES : ℤ := 100

/-- MAX_UPDATES of the first window.__pp_state variant (part_001 line 1171). -/
def MAX_UPDATES : ℕ := 10

/-- Abstraction of the DOM reads performed by calculatePageCount
(part_001 lines 1296-1365).  The constructors follow the null checks of
the source in order:
 - noPagination: no data-rm-pagination element; carries the summed
   offsetHeight of the non-pagination children;
 - paginationNoBreak: a pagination element whose last child has no
   .breaker descendant; carries its children count;
 - breakNoContent: pagination element and breaker present, but no
   non-pagination child at all; carries the children count;
 - withContent: everything present; carries the children count and the
   measured overflow, the bottom of the last content element minus the
   bottom of the last page break. -/
inductive DomView where
  | noPagination (contentHeight : ℚ)
  | paginationNoBreak (currentPageCount : ℕ)
  | breakNoContent (currentPageCount : ℕ)
  | withContent (currentPageCount : ℕ) (overflow : ℚ)

/-- Store a freshly computed page count in the shared state and return it,
the common tail state.pageCount = n; return n of every branch. -/
def setCount (s : PPState) (n : ℤ) : PPState × ℤ :=
  ({ s with pageCount := n }, n)

/-- calculatePageCount of the first window.__pp_state variant
(src/unnamed/part_001 lines 1270-1394).  The mutable state is threaded
explicitly: the result is the updated state together with the returned
page count. -/
def calculatePageCount (s : PPState) (o : PageOpts) (d : DomView)
    (headerHeight footerHeight : ℚ) : PPState × ℤ :=
  if s.locked then (s, s.pageCount)
  else if contentAreaHeight o headerHeight footerHeight ≤ 50 then setCount s 1
  else
    match d with
    | DomView.noPagination contentHeight =>
        if contentHeight < 50 then setCount s 1
        else
          setCount s (min (max 1 ⌈contentHeight / contentAreaHeight o headerHeight footerHeight⌉) MAX_PAGES)
    | DomView.paginationNoBreak cur =>
        setCount s (if cur = 0 then 1 else (cur : ℤ))
    | DomView.breakNoContent _ => setCount s 1
    | DomView.withContent cur overflow =>
        if 10 < overflow then
          setCount s (min ((cur : ℤ) + ⌈overflow / contentAreaHeight o headerHeight footerHeight⌉) MAX_PAGES)
        else if overflow < -(contentAreaHeight o headerHeight footerHeight + o.pageGap) ∧ 1 < cur then
          if 0 < ⌊|overflow| / (contentAreaHeight o headerHeight footerHeight + o.pageGap)⌋ then
            setCount s (max 1 ((cur : ℤ) - ⌊|overflow| / (contentAreaHeight o headerHeight footerHeight + o.pageGap)⌋))
          else setCount s (cur : ℤ)
        else setCount s (cur : ℤ)

/-- getExistingPageCount (part_001 lines 1935-1942): the children count of
the pagination element, 0 when there is none. -/
def existingPageCount : DomView → ℕ
  | DomView.noPagination _ => 0
  | DomView.paginationNoBreak cur => cur
  | DomView.breakNoContent cur => cur
  | DomView.withContent cur _ => cur

/-- Outcome of one run of the plugin view update callback
(part_001 lines 1669-1704):
 - bypass: locked, early return, nothing read or scheduled;
 - lock: mismatch and the incremented update count exceeded MAX_UPDATES,
   the state locks and a one-shot unlock timer is scheduled;
 - rebuild: mismatch within the bound, a decoration rebuild transaction is
   scheduled on the next animation frame;
 - stable: calculated count equals the rendered count, counter reset. -/
inductive UpdateAction where
  | bypass
  | lock
  | rebuild
  | stable
deriving DecidableEq

/-- The plugin view update callback (src/unnamed/part_001 lines 1669-1704),
with the scheduled side effects (setTimeout, requestAnimationFrame,
dispatch) reported as the returned UpdateAction. -/
def viewUpdate (s : PPState) (o : PageOpts) (d : DomView) : PPState × UpdateAction :=
  if s.locked then (s, UpdateAction.bypass)
  else
    let r := calculatePageCount s o d 0 0
    if (existingPageCount d : ℤ) ≠ r.2 then
      if MAX_UPDATES < r.1.updateCount + 1 then
        ({ r.1 with updateCount := r.1.updateCount + 1, locked := true }, UpdateAction.lock)
      else
        ({ r.1 with updateCount := r.1.updateCount + 1 }, UpdateAction.rebuild)
    else
      ({ r.1 with updateCount := 0 }, UpdateAction.stable)

/-- The body of the one-shot unlock timer scheduled when the controller
locks (part_001 lines 1630-1633 and 1687-1690): locked is cleared and
updateCount reset to 0; the frozen pageCount is kept. -/
def unlockCooldown (s : PPState) : PPState :=
  { s with locked := false, updateCount := 0 }

/-- A trace of successive view update passes: the actions produced by
folding viewUpdate over a list of DOM measurements. -/
def runUpdates (o : PageOpts) : PPState → List DomView → List UpdateAction
  | _, [] => []
  | s, d :: ds => (viewUpdate s o d).2 :: runUpdates o (viewUpdate s o d).1 ds

/-- Number of corrective (rebuild) passes before the first pass with any
other outcome. -/
def leadingRebuilds : List UpdateAction → ℕ
  | UpdateAction.rebuild :: rest => leadingRebuilds rest + 1
  | _ => 0

/-- Bounds on the rendered page count that hold for any DOM actually
produced by this extension: createDecoration (part_001 line 1951) renders
safePageCount = max 1 (min pageCount MAX_PAGES) wrappers, so a pagination
element has between 1 and MAX_PAGES children. -/
def DomView.wellFormed : DomView → Prop
  | DomView.noPagination _ => True
  | DomView.paginationNoBreak cur => (cur : ℤ) ≤ MAX_PAGES
  | DomView.breakNoContent _ => True
  | DomView.withContent cur _ => 1 ≤ cur ∧ (cur : ℤ) ≤ MAX_PAGES

end PaginationV1

namespace PaginationV2

/-- MAX_PAGES of the second window.__pp_state variant (part_001 line 2264). -/
def MAX_PAGES : ℤ := 500

/-- Abstraction of the DOM reads of the second variant's calculatePageCount
(part_001 lines 2407-2524): the heights of the non-pagination children, the
children count of the pagination element when present, and, when the last
page break's .breaker is found, the overflow of the last content element
past it. -/
structure DomView where
  contentHeights : List ℚ
  pagination : Option ℕ
  lastBreakOverflow : Option ℚ

/-- Store a freshly computed page count in the shared state and return it. -/
def setCount (s : PPState) (n : ℤ) : PPState × ℤ :=
  ({ s with pageCount := n }, n)

/-- calculatePageCount of the second window.__pp_state variant
(src/unnamed/part_001 lines 2363-2529): division-strategy estimate first,
then overflow correction against the last rendered break, with tolerance
20, a keep band down to -50, and a two-page hysteresis on removal.  The
dimension-signature reset of lines 2376-2384 is included. -/
def calculatePageCount (s : PPState) (o : PageOpts) (d : DomView)
    (headerHeight footerHeight : ℚ) : PPState × ℤ :=
  if s.locked then (s, s.pageCount)
  else
    let s1 :=
      if s.lastDimensions ≠ some (o.pageWidth, o.pageHeight) then
        { s with lastDimensions := some (o.pageWidth, o.pageHeight)
                 pageCount := 1, updateCount := 0 }
      else s
    if contentAreaHeight o headerHeight footerHeight ≤ 50 then setCount s1 1
    else if d.contentHeights.isEmpty then setCount s1 1
    else if d.contentHeights.sum < 50 then setCount s1 1
    else
      let area := contentAreaHeight o headerHeight footerHeight
      let p0 := max 1 (min ⌈d.contentHeights.sum / area⌉ MAX_PAGES)
      match d.pagination with
      | none => setCount s1 p0
      | some cur =>
          if 0 < cur ∧ ¬ d.contentHeights.isEmpty then
            match d.lastBreakOverflow with
            | none => setCount s1 p0
            | some overflow =>
                if 20 < overflow then
                  setCount s1 (min ((cur : ℤ) + ⌈overflow / area⌉) MAX_PAGES)
                else if -50 ≤ overflow then
                  setCount s1 (cur : ℤ)
                else if overflow < -(area + o.pageGap) ∧ 1 < cur then
                  if 2 ≤ ⌊|overflow| / (area + o.pageGap)⌋ then
                    setCount s1 (max 1 ((cur : ℤ) - (⌊|overflow| / (area + o.pageGap)⌋ - 1)))
                  else setCount s1 (cur : ℤ)
                else setCount s1 (cur : ℤ)
          else setCount s1 p0

end PaginationV2

namespace PaginationSrc

/-- Abstraction of the DOM reads of the debug variant's calculatePageCount
(src/src/PaginationPlus.ts lines 262-355).  Note that this variant
compares the last child of the editor overall (not the last content
element) against the last break, and estimates from scrollHeight when no
pagination has been rendered:
 - noPagination: no data-rm-pagination element; carries scrollHeight;
 - noBreak: pagination present but last editor child or .breaker missing;
 - withBreak: carries the pagination children count and the gap of the
   last editor child's bottom past the last breaker's bottom. -/
inductive DomView where
  | noPagination (scrollHeight : ℚ)
  | noBreak
  | withBreak (currentPageCount : ℕ) (lastPageGap : ℚ)

/-- calculatePageCount of src/src/PaginationPlus.ts (lines 230-356).  This
variant has no lock state and no MAX_PAGES clamp; it returns the page
count directly. -/
def calculatePageCount (o : PageOpts) (d : DomView)
    (headerHeight footerHeight : ℚ) : ℤ :=
  if contentAreaHeight o headerHeight footerHeight ≤ 50 then 1
  else
    match d with
    | DomView.withBreak cur lastPageGap =>
        if 0 < lastPageGap then
          (cur : ℤ) + ⌈lastPageGap / contentAreaHeight o headerHeight footerHeight⌉
        else if -(o.pageHeight - 10) < lastPageGap ∧ lastPageGap < -10 then (cur : ℤ)
        else if lastPageGap < -(o.pageHeight - 10) then
          max 1 ((cur : ℤ) + ⌊lastPageGap / (o.pageHeight + o.pageGap)⌋)
        else (cur : ℤ)
    | DomView.noBreak => 1
    | DomView.noPagination scrollHeight =>
        if ⌈scrollHeight / contentAreaHeight o headerHeight footerHeight⌉ ≤ 0 then 1
        else ⌈scrollHeight / contentAreaHeight o headerHeight footerHeight⌉

/-- Bound on the rendered page count that holds for any DOM the extension
actually produced: a pagination element that contains a .breaker has at
least one page-break child. -/
def DomView.wellFormed : DomView → Prop
  | DomView.noPagination _ => True
  | DomView.noBreak => True
  | DomView.withBreak cur _ => 1 ≤ cur

end PaginationSrc

namespace PaginationCmd

/-- Header text slots, as in types.ts (headerCenter is optional in the
source interface; the commands always write a string, defaulting to the
empty string, so it is a plain string here). -/
structure HeaderOptions where
  headerLeft : String
  headerRight : String
  headerCenter : String

/-- Footer text slots, as in types.ts. -/
structure FooterOptions where
  footerLeft : String
  footerRight : String
  footerCenter : String

/-- The fields of PaginationPlusOptions touched by updateHeaderContent and
updateFooterContent: the document-wide default slots and the per-page
override records (Record PageNumber HeaderOptions, modelled as a partial
map). -/
structure CmdOptions where
  headerLeft : String
  headerRight : String
  headerCenter : String
  footerLeft : String
  footerRight : String
  footerCenter : String
  customHeader : ℕ → Option HeaderOptions
  customFooter : ℕ → Option FooterOptions

/-- updateHeaderContent (src/src/PaginationPlus.ts lines 892-915, identical
in src/unnamed/part_001 lines 1883-1906).  The source guard is the JS
truthiness test if (pageNumber): undefined and 0 both take the else branch
updating the document-wide default slots; any nonzero page number writes a
per-page override.  The command always returns true. -/
def updateHeaderContent (o : CmdOptions) (left right : String)
    (center : Option String) (pageNumber : Option ℕ) : CmdOptions × Bool :=
  match pageNumber with
  | some n =>
      if n = 0 then
        ({ o with headerLeft := left, headerRight := right
                  headerCenter := center.getD "" }, true)
      else
        ({ o with customHeader := fun k =>
              if k = n then some ⟨left, right, center.getD ""⟩
              else o.customHeader k }, true)
  | none =>
      ({ o with headerLeft := left, headerRight := right
                headerCenter := center.getD "" }, true)

/-- updateFooterContent (src/src/PaginationPlus.ts lines 916-939, identical
in src/unnamed/part_001 lines 1907-1930), the footer counterpart of
updateHeaderContent with the same truthiness guard. -/
def updateFooterContent (o : CmdOptions) (left right : String)
    (center : Option String) (pageNumber : Option ℕ) : CmdOptions × Bool :=
  match pageNumber with
  | some n =>
      if n = 0 then
        ({ o with footerLeft := left, footerRight := right
                  footerCenter := center.getD "" }, true)
      else
        ({ o with customFooter := fun k =>
              if k = n then some ⟨left, right, center.getD ""⟩
              else o.customFooter k }, true)
  | none =>
      ({ o with footerLeft := left, footerRight := right
                footerCenter := center.getD "" }, true)

end PaginationCmd

/-
Theorems.  First a few small arithmetic helper lemmas for the concrete
ceiling values appearing in the scenarios, then one theorem per claim.
-/

theorem ceil_100_37 : (⌈(100 : ℚ) / 37⌉ : ℤ) = 3 := by
  rw [Int.ceil_eq_iff]; norm_num

theorem ceil_3_148 : (⌈(3 : ℚ) / 148⌉ : ℤ) = 1 := by
  rw [Int.ceil_eq_iff]; norm_num

theorem ceil_3_37 : (⌈(3 : ℚ) / 37⌉ : ℤ) = 1 := by
  rw [Int.ceil_eq_iff]; norm_num

/-- C1: whenever the computed per-page content area height (pageHeight
minus the header reservation contentMarginTop+marginTop+headerHeight and
the footer reservation contentMarginBottom+marginBottom+footerHeight) is
at most 50, the estimator returns exactly 1, for every possible DOM
measurement and rendered page count: unconditionally in the
src/src/PaginationPlus.ts variant, and on every non-bypassed call (the
lock, when engaged, freezes the count before any geometry is read, see
C6) in the part_001 variant. -/
theorem C1_degenerate_area_clamps_to_one (o : PageOpts) (hh fh : ℚ)
    (ha : contentAreaHeight o hh fh ≤ 50) :
    (∀ d : PaginationSrc.DomView, PaginationSrc.calculatePageCount o d hh fh = 1) ∧
    (∀ (s : PPState) (d : PaginationV1.DomView), s.locked = false →
      (PaginationV1.calculatePageCount s o d hh fh).2 = 1) := by
  constructor
  · intro d
    unfold PaginationSrc.calculatePageCount
    rw [if_pos ha]
  · intro s d hs
    unfold PaginationV1.calculatePageCount
    rw [hs]
    simp only [Bool.false_eq_true, if_false, if_pos ha, PaginationV1.setCount]

/-- C1 witness: the degenerate configuration (pageHeight 90, reservations
summing to 90) has content area 0 ≤ 50, and both estimators return 1 on
it at concrete measurements. -/
theorem C1_witness :
    contentAreaHeight cfgDegenerate 0 0 ≤ 50 ∧
    PaginationSrc.calculatePageCount cfgDegenerate
        (PaginationSrc.DomView.noPagination 2000) 0 0 = 1 ∧
    (PaginationV1.calculatePageCount initState cfgDegenerate
        (PaginationV1.DomView.withContent 3 15) 0 0).2 = 1 := by
  have ha : contentAreaHeight cfgDegenerate 0 0 ≤ 50 := by
    norm_num [contentAreaHeight, pageHeaderReserved, pageFooterReserved, cfgDegenerate]
  have h := C1_degenerate_area_clamps_to_one cfgDegenerate 0 0 ha
  exact ⟨ha, h.1 _, h.2 initState _ rfl⟩

/-- C2 counterexample: the claim asserts the estimator's result is clamped
to the configured hard upper bound (MAX_PAGES) under both strategies,
including the add-pages branch, and cites src/src/PaginationPlus.ts lines
290-356 among its sources; but that variant's add-pages branch returns
currentPageCount + ceil(lastPageGap / contentAreaHeight) with no clamp
(and the file defines no MAX_PAGES constant at all).  With 3 rendered
pages, content area 740 and a measured gap of 740000, it returns
3 + 1000 = 1003, above the hard upper bound of either part_001 variant
(100 and 500). -/
theorem C2_counterexample :
    PaginationSrc.calculatePageCount cfg800
        (PaginationSrc.DomView.withBreak 3 740000) 0 0 = 1003 ∧
    PaginationV1.MAX_PAGES < PaginationSrc.calculatePageCount cfg800
        (PaginationSrc.DomView.withBreak 3 740000) 0 0 ∧
    PaginationV2.MAX_PAGES < PaginationSrc.calculatePageCount cfg800
        (PaginationSrc.DomView.withBreak 3 740000) 0 0 := by
  have hce : (⌈(740000 : ℚ) / 740⌉ : ℤ) = 1000 := by
    rw [show (740000 : ℚ) / 740 = 1000 by norm_num, Int.ceil_eq_iff]; norm_num
  have h : PaginationSrc.calculatePageCount cfg800
      (PaginationSrc.DomView.withBreak 3 740000) 0 0 = 1003 := by
    norm_num [PaginationSrc.calculatePageCount, contentAreaHeight,
      pageHeaderReserved, pageFooterReserved, cfg800, hce]
  refine ⟨h, ?_, ?_⟩ <;>
    rw [h] <;> norm_num [PaginationV1.MAX_PAGES, PaginationV2.MAX_PAGES]

/-- C2 amended: above the floor, the target page count is at least 1 in
every cited variant, and it is clamped to the hard upper bound only in the
part_001 variant that defines one: the first window.__pp_state variant
returns a target in the inclusive range 1 .. MAX_PAGES on every branch,
division strategy and overflow correction alike (the rendered page count
fed back to it is well formed, that is, within the bounds createDecoration
can render); the src/src/PaginationPlus.ts variant, which has no MAX_PAGES
constant and no upper clamp (see the counterexample), still always returns
at least 1. -/
theorem C2_target_in_range (s : PPState) (o : PageOpts) (d : PaginationV1.DomView)
    (hh fh : ℚ) (hl : s.locked = false) (ha : 50 < contentAreaHeight o hh fh)
    (hw : d.wellFormed) :
    (1 ≤ (PaginationV1.calculatePageCount s o d hh fh).2 ∧
      (PaginationV1.calculatePageCount s o d hh fh).2 ≤ PaginationV1.MAX_PAGES) ∧
    (∀ dsrc : PaginationSrc.DomView, dsrc.wellFormed →
      1 ≤ PaginationSrc.calculatePageCount o dsrc hh fh) := by
  have harea : (0 : ℚ) < contentAreaHeight o hh fh := by linarith
  constructor
  · cases d with
    | noPagination contentHeight =>
        simp only [PaginationV1.calculatePageCount, PaginationV1.setCount,
          PaginationV1.MAX_PAGES, hl, Bool.false_eq_true, if_false,
          if_neg (not_le.mpr ha)]
        split_ifs
        · omega
        · refine ⟨le_min (le_max_left _ _) (by norm_num), min_le_right _ _⟩
    | paginationNoBreak cur =>
        simp only [PaginationV1.DomView.wellFormed, PaginationV1.MAX_PAGES] at hw
        simp only [PaginationV1.calculatePageCount, PaginationV1.setCount,
          PaginationV1.MAX_PAGES, hl, Bool.false_eq_true, if_false,
          if_neg (not_le.mpr ha)]
        split_ifs with h0
        · omega
        · omega
    | breakNoContent cur =>
        simp only [PaginationV1.calculatePageCount, PaginationV1.setCount,
          PaginationV1.MAX_PAGES, hl, Bool.false_eq_true, if_false,
          if_neg (not_le.mpr ha)]
        omega
    | withContent cur overflow =>
        simp only [PaginationV1.DomView.wellFormed, PaginationV1.MAX_PAGES] at hw
        obtain ⟨hw1, hw2⟩ := hw
        simp only [PaginationV1.calculatePageCount, PaginationV1.setCount,
          PaginationV1.MAX_PAGES, hl, Bool.false_eq_true, if_false,
          if_neg (not_le.mpr ha)]
        split_ifs with h10 hneg hfl
        · have hce : 0 < ⌈overflow / contentAreaHeight o hh fh⌉ :=
            Int.ceil_pos.mpr (div_pos (by linarith) harea)
          omega
        · omega
        · omega
        · omega
  · intro dsrc hwsrc
    cases dsrc with
    | noPagination scrollHeight =>
        simp only [PaginationSrc.calculatePageCount, if_neg (not_le.mpr ha)]
        split_ifs with h0
        · omega
        · omega
    | noBreak =>
        simp only [PaginationSrc.calculatePageCount, if_neg (not_le.mpr ha)]
        omega
    | withBreak cur lastPageGap =>
        simp only [PaginationSrc.DomView.wellFormed] at hwsrc
        simp only [PaginationSrc.calculatePageCount, if_neg (not_le.mpr ha)]
        split_ifs with h1 h2 h3
        · have hce : 0 < ⌈lastPageGap / contentAreaHeight o hh fh⌉ :=
            Int.ceil_pos.mpr (div_pos h1 harea)
          omega
        · omega
        · omega
        · omega

/-- C2 witness: the range property instantiated at the scenario
configuration with 3 rendered pages and a 15 unit overflow. -/
theorem C2_witness :
    (initState.locked = false ∧ 50 < contentAreaHeight cfg800 0 0 ∧
      (PaginationV1.DomView.withContent 3 15).wellFormed) ∧
    1 ≤ (PaginationV1.calculatePageCount initState cfg800
        (PaginationV1.DomView.withContent 3 15) 0 0).2 ∧
    (PaginationV1.calculatePageCount initState cfg800
        (PaginationV1.DomView.withContent 3 15) 0 0).2 ≤ PaginationV1.MAX_PAGES := by
  have ha : 50 < contentAreaHeight cfg800 0 0 := by
    norm_num [contentAreaHeight, pageHeaderReserved, pageFooterReserved, cfg800]
  have hw : (PaginationV1.DomView.withContent 3 15).wellFormed := by
    constructor <;> norm_num [PaginationV1.MAX_PAGES]
  have h := C2_target_in_range initState cfg800
    (PaginationV1.DomView.withContent 3 15) 0 0 rfl ha hw
  exact ⟨⟨rfl, ha, hw⟩, h.1.1, h.1.2⟩

/-- C3: when no pagination has been rendered yet the part_001 variants use
the division strategy, and the division strategy is exactly
max 1 (ceil of measuredContentHeight / contentAreaHeight); on the scenario
pageHeight 800, margins 20/20, content margins 10/10, no header/footer the
content area is 740 and a measured height of 2000 yields a target of 3,
both for calculatePageCountFromContent and for the no-pagination branch of
the first window.__pp_state variant. -/
theorem C3_division_strategy (contentHeight : ℚ) (o : PageOpts) (hh fh : ℚ)
    (ha : 50 < contentAreaHeight o hh fh) :
    PaginationV0.calculatePageCountFromContent contentHeight o hh fh
        = max 1 ⌈contentHeight / contentAreaHeight o hh fh⌉ ∧
    contentAreaHeight cfg800 0 0 = 740 ∧
    PaginationV0.calculatePageCountFromContent 2000 cfg800 0 0 = 3 ∧
    (PaginationV1.calculatePageCount initState cfg800
        (PaginationV1.DomView.noPagination 2000) 0 0).2 = 3 := by
  refine ⟨?_, ?_, ?_, ?_⟩
  · unfold PaginationV0.calculatePageCountFromContent
    rw [if_neg (not_le.mpr ha)]
  · norm_num [contentAreaHeight, pageHeaderReserved, pageFooterReserved, cfg800]
  · norm_num [PaginationV0.calculatePageCountFromContent, contentAreaHeight,
      pageHeaderReserved, pageFooterReserved, cfg800, ceil_100_37]
  · norm_num [PaginationV1.calculatePageCount, PaginationV1.setCount,
      PaginationV1.MAX_PAGES, contentAreaHeight, pageHeaderReserved,
      pageFooterReserved, cfg800, initState, ceil_100_37]

/-- C3 witness: the general division formula instantiated at the scenario
configuration and measurement. -/
theorem C3_witness :
    50 < contentAreaHeight cfg800 0 0 ∧
    PaginationV0.calculatePageCountFromContent 2000 cfg800 0 0
        = max 1 ⌈(2000 : ℚ) / contentAreaHeight cfg800 0 0⌉ := by
  have ha : 50 < contentAreaHeight cfg800 0 0 := by
    norm_num [contentAreaHeight, pageHeaderReserved, pageFooterReserved, cfg800]
  exact ⟨ha, (C3_division_strategy 2000 cfg800 0 0 ha).1⟩

/-- Helper: calculatePageCount of the first window.__pp_state variant only
ever writes the pageCount field; locked and updateCount pass through. -/
theorem calc1_state_fields (s : PPState) (o : PageOpts) (d : PaginationV1.DomView)
    (hh fh : ℚ) :
    (PaginationV1.calculatePageCount s o d hh fh).1.locked = s.locked ∧
    (PaginationV1.calculatePageCount s o d hh fh).1.updateCount = s.updateCount := by
  cases d <;>
    simp only [PaginationV1.calculatePageCount, PaginationV1.setCount] <;>
    split_ifs <;> simp

/-- Helper: per-pass characterization of the view update of the first
window.__pp_state variant on an unlocked state: a rebuild pass increments
the counter, stays unlocked and happens only while the incremented counter
is within MAX_UPDATES; a stable pass means the calculated target equals
the rendered count and resets the counter; a lock pass sets locked. -/
theorem viewUpdate_step_cases (s : PPState) (o : PageOpts)
    (d : PaginationV1.DomView) (hl : s.locked = false) :
    ((PaginationV1.viewUpdate s o d).2 = PaginationV1.UpdateAction.rebuild →
      (PaginationV1.viewUpdate s o d).1.updateCount = s.updateCount + 1 ∧
      (PaginationV1.viewUpdate s o d).1.locked = false ∧
      s.updateCount + 1 ≤ PaginationV1.MAX_UPDATES) ∧
    ((PaginationV1.viewUpdate s o d).2 = PaginationV1.UpdateAction.stable →
      (PaginationV1.viewUpdate s o d).1.updateCount = 0 ∧
      (PaginationV1.existingPageCount d : ℤ)
        = (PaginationV1.calculatePageCount s o d 0 0).2) ∧
    ((PaginationV1.viewUpdate s o d).2 = PaginationV1.UpdateAction.lock →
      (PaginationV1.viewUpdate s o d).1.locked = true ∧
      PaginationV1.MAX_UPDATES < s.updateCount + 1) := by
  have hc := calc1_state_fields s o d 0 0
  simp only [PaginationV1.viewUpdate, hl, Bool.false_eq_true, if_false]
  split_ifs with h1 h2
  · simp_all [PaginationV1.MAX_UPDATES]
  · simp_all [PaginationV1.MAX_UPDATES]
  · push_neg at h1
    simp_all [PaginationV1.MAX_UPDATES]

/-- Helper: on an unlocked state, the number of consecutive corrective
(rebuild) passes at the head of any trace is at most what is left of the
MAX_UPDATES budget. -/
theorem leadingRebuilds_le (o : PageOpts) :
    ∀ (ds : List PaginationV1.DomView) (s : PPState), s.locked = false →
    PaginationV1.leadingRebuilds (PaginationV1.runUpdates o s ds)
      ≤ PaginationV1.MAX_UPDATES - s.updateCount
  | [], s, _ => by
      simp [PaginationV1.runUpdates, PaginationV1.leadingRebuilds]
  | d :: ds, s, hl => by
      have hv := viewUpdate_step_cases s o d hl
      rw [PaginationV1.runUpdates]
      rcases hact : (PaginationV1.viewUpdate s o d).2 with _ | _ | _ | _
      · simp [PaginationV1.leadingRebuilds]
      · simp [PaginationV1.leadingRebuilds]
      · obtain ⟨hcnt, hlk, hble⟩ := hv.1 hact
        have ih := leadingRebuilds_le o ds (PaginationV1.viewUpdate s o d).1 hlk
        simp only [PaginationV1.leadingRebuilds]
        rw [hcnt] at ih
        simp only [PaginationV1.MAX_UPDATES] at *
        omega
      · simp [PaginationV1.leadingRebuilds]

/-- C7: for a fixed configuration, starting unlocked with the attempt
counter at 0, any trace of view update passes (over arbitrary successive
DOM measurements, so in particular over the fixed measurements of an
unchanging document) contains at most MAX_UPDATES consecutive corrective
passes before a pass that is stable, locks, or bypasses; each corrective
pass increments the attempt counter, a stable pass means target equals
rendered count and resets the counter to 0, and the pass that exceeds the
bound transitions to Locked. -/
theorem C7_bounded_corrective_passes (o : PageOpts) (s : PPState)
    (d : PaginationV1.DomView) (ds : List PaginationV1.DomView)
    (hl : s.locked = false) (hc : s.updateCount = 0) :
    PaginationV1.leadingRebuilds (PaginationV1.runUpdates o s ds)
      ≤ PaginationV1.MAX_UPDATES ∧
    ((PaginationV1.viewUpdate s o d).2 = PaginationV1.UpdateAction.rebuild →
      (PaginationV1.viewUpdate s o d).1.updateCount = s.updateCount + 1) ∧
    ((PaginationV1.viewUpdate s o d).2 = PaginationV1.UpdateAction.stable →
      (PaginationV1.viewUpdate s o d).1.updateCount = 0 ∧
      (PaginationV1.existingPageCount d : ℤ)
        = (PaginationV1.calculatePageCount s o d 0 0).2) ∧
    ((PaginationV1.viewUpdate s o d).2 = PaginationV1.UpdateAction.lock →
      (PaginationV1.viewUpdate s o d).1.locked = true) := by
  have hv := viewUpdate_step_cases s o d hl
  refine ⟨?_, fun h => (hv.1 h).1, hv.2.1, fun h => (hv.2.2 h).1⟩
  have := leadingRebuilds_le o ds s hl
  omega

/-- C7 witness: the trace bound instantiated on a concrete one-element
trace from the initial state. -/
theorem C7_witness :
    initState.locked = false ∧ initState.updateCount = 0 ∧
    PaginationV1.leadingRebuilds (PaginationV1.runUpdates cfg800 initState
        [PaginationV1.DomView.noPagination 60]) ≤ PaginationV1.MAX_UPDATES := by
  exact ⟨rfl, rfl,
    (C7_bounded_corrective_passes cfg800 initState
      (PaginationV1.DomView.noPagination 60)
      [PaginationV1.DomView.noPagination 60] rfl rfl).1⟩

/-- C5: under the overflow-correction strategy of the first
window.__pp_state variant, when content ends above the last rendered break
the page count is reduced only when the empty space strictly exceeds one
full content area plus the page gap (a one-page margin never removes
anything), any removal leaves at least 1 page, and on the scenario with 5
rendered pages and 2000 units of empty space the count drops to 3 (the
second variant, with its two-page hysteresis, drops to 4 on the same
scenario), both at least 1. -/
theorem C5_removal_hysteresis (s : PPState) (o : PageOpts) (hh fh : ℚ)
    (cur : ℕ) (overflow : ℚ) (hl : s.locked = false)
    (ha : 50 < contentAreaHeight o hh fh) (hcur : 1 ≤ cur) :
    (overflow ≤ 0 → -(contentAreaHeight o hh fh + o.pageGap) ≤ overflow →
      (PaginationV1.calculatePageCount s o
          (PaginationV1.DomView.withContent cur overflow) hh fh).2 = (cur : ℤ)) ∧
    (1 ≤ (PaginationV1.calculatePageCount s o
        (PaginationV1.DomView.withContent cur overflow) hh fh).2) ∧
    (PaginationV1.calculatePageCount initState cfg800
        (PaginationV1.DomView.withContent 5 (-2000)) 0 0).2 = 3 ∧
    (PaginationV2.calculatePageCount initState cfg800
        ⟨[1700], some 5, some (-2000)⟩ 0 0).2 = 4 := by
  have harea : (0 : ℚ) < contentAreaHeight o hh fh := by linarith
  refine ⟨?_, ?_, ?_, ?_⟩
  · intro hne hband
    simp only [PaginationV1.calculatePageCount, PaginationV1.setCount,
      PaginationV1.MAX_PAGES, hl, Bool.false_eq_true, if_false,
      if_neg (not_le.mpr ha)]
    rw [if_neg (by intro h; linarith), if_neg (by intro h; linarith [h.1])]
  · simp only [PaginationV1.calculatePageCount, PaginationV1.setCount,
      PaginationV1.MAX_PAGES, hl, Bool.false_eq_true, if_false,
      if_neg (not_le.mpr ha)]
    split_ifs with h10 hneg hfl
    · have hce : 0 < ⌈overflow / contentAreaHeight o hh fh⌉ :=
        Int.ceil_pos.mpr (div_pos (by linarith) harea)
      omega
    · omega
    · omega
    · omega
  · norm_num [PaginationV1.calculatePageCount, PaginationV1.setCount,
      PaginationV1.MAX_PAGES, contentAreaHeight, pageHeaderReserved,
      pageFooterReserved, cfg800, initState]
  · norm_num [PaginationV2.calculatePageCount, PaginationV2.setCount,
      PaginationV2.MAX_PAGES, contentAreaHeight, pageHeaderReserved,
      pageFooterReserved, cfg800, initState]

/-- C5 witness: with a one-page margin of empty space (100 units, well
under 740 + 50) nothing is removed: the estimator keeps the rendered count
of 5. -/
theorem C5_witness :
    ((-100 : ℚ) ≤ 0 ∧ -(contentAreaHeight cfg800 0 0 + cfg800.pageGap) ≤ (-100 : ℚ)) ∧
    (PaginationV1.calculatePageCount initState cfg800
        (PaginationV1.DomView.withContent 5 (-100)) 0 0).2 = 5 := by
  have ha : 50 < contentAreaHeight cfg800 0 0 := by
    norm_num [contentAreaHeight, pageHeaderReserved, pageFooterReserved, cfg800]
  have hband : -(contentAreaHeight cfg800 0 0 + cfg800.pageGap) ≤ (-100 : ℚ) := by
    norm_num [contentAreaHeight, pageHeaderReserved, pageFooterReserved, cfg800]
  have h := C5_removal_hysteresis initState cfg800 0 0 5 (-100) rfl ha (by norm_num)
  exact ⟨⟨by norm_num, hband⟩, h.1 (by norm_num) hband⟩

/-- C6: whenever the shared state is locked, the first window.__pp_state
variant's estimator returns the frozen pageCount verbatim with the state
untouched, and the plugin view update bypasses entirely (no measurement,
no rebuild transaction; the decoration apply hook likewise returns the old
decoration set under the same guard, part_001 lines 1588-1590); the
one-shot cooldown callback scheduled at lock time clears locked and resets
updateCount to 0 while keeping the frozen pageCount, so exactly one fresh
convergence attempt is permitted afterwards. -/
theorem C6_locked_freezes_until_cooldown (s : PPState) (o : PageOpts)
    (d : PaginationV1.DomView) (hh fh : ℚ) (hl : s.locked = true) :
    PaginationV1.calculatePageCount s o d hh fh = (s, s.pageCount) ∧
    PaginationV1.viewUpdate s o d = (s, PaginationV1.UpdateAction.bypass) ∧
    (PaginationV1.unlockCooldown s).locked = false ∧
    (PaginationV1.unlockCooldown s).updateCount = 0 ∧
    (PaginationV1.unlockCooldown s).pageCount = s.pageCount := by
  refine ⟨?_, ?_, rfl, rfl, rfl⟩
  · unfold PaginationV1.calculatePageCount
    rw [if_pos hl]
  · unfold PaginationV1.viewUpdate
    rw [if_pos hl]

/-- C6 witness: a concrete locked state with frozen page count 7 is
bypassed on a call whose fresh estimate would be 1, and the cooldown
callback unlocks it with the attempt counter cleared. -/
theorem C6_witness :
    (PPState.mk 7 true 11 none).locked = true ∧
    (PaginationV1.calculatePageCount (PPState.mk 7 true 11 none) cfg800
        (PaginationV1.DomView.noPagination 60) 0 0).2 = 7 ∧
    (PaginationV1.viewUpdate (PPState.mk 7 true 11 none) cfg800
        (PaginationV1.DomView.noPagination 60)).2 = PaginationV1.UpdateAction.bypass ∧
    (PaginationV1.unlockCooldown (PPState.mk 7 true 11 none)).locked = false ∧
    (PaginationV1.unlockCooldown (PPState.mk 7 true 11 none)).updateCount = 0 := by
  have h := C6_locked_freezes_until_cooldown (PPState.mk 7 true 11 none) cfg800
    (PaginationV1.DomView.noPagination 60) 0 0 rfl
  exact ⟨rfl, by rw [h.1], by rw [h.2.1], h.2.2.1, h.2.2.2.1⟩

/-- C4 counterexample: the claim asserts that with 3 rendered pages,
content area 740 and a measured overflow of 15 the estimator returns 4;
the second window.__pp_state variant (the one cited at part_001 lines
2485-2501) uses tolerance 20, treats an overflow of 15 as fitting (its
keep band is -50 ≤ overflow ≤ 20), and returns 3, not 4. -/
theorem C4_counterexample :
    (PaginationV2.calculatePageCount initState cfg800
        ⟨[2200], some 3, some 15⟩ 0 0).2 = 3 ∧
    (PaginationV2.calculatePageCount initState cfg800
        ⟨[2200], some 3, some 15⟩ 0 0).2 ≠ 4 := by
  have h : (PaginationV2.calculatePageCount initState cfg800
      ⟨[2200], some 3, some 15⟩ 0 0).2 = 3 := by
    norm_num [PaginationV2.calculatePageCount, PaginationV2.setCount,
      PaginationV2.MAX_PAGES, contentAreaHeight, pageHeaderReserved,
      pageFooterReserved, cfg800, initState]
  exact ⟨h, by rw [h]; decide⟩

/-- C4 amended: under the overflow-correction strategy of the first
window.__pp_state variant, whose tolerance is 10, the scenario (3 rendered
pages, content area 740, overflow 15) yields 3 + ceil(15/740) = 4; the
second variant uses tolerance 20 and keeps the count at 3 on the same
scenario (see the counterexample). -/
theorem C4_overflow_adds_page :
    (PaginationV1.calculatePageCount initState cfg800
        (PaginationV1.DomView.withContent 3 15) 0 0).2 = 3 + ⌈(15 : ℚ) / 740⌉ ∧
    (PaginationV1.calculatePageCount initState cfg800
        (PaginationV1.DomView.withContent 3 15) 0 0).2 = 4 := by
  have h4 : (PaginationV1.calculatePageCount initState cfg800
      (PaginationV1.DomView.withContent 3 15) 0 0).2 = 4 := by
    norm_num [PaginationV1.calculatePageCount, PaginationV1.setCount,
      PaginationV1.MAX_PAGES, contentAreaHeight, pageHeaderReserved,
      pageFooterReserved, cfg800, initState, ceil_3_148]
  have hc : (⌈(15 : ℚ) / 740⌉ : ℤ) = 1 := by
    rw [show (15 : ℚ) / 740 = 3 / 148 by norm_num, ceil_3_148]
  exact ⟨by rw [h4, hc]; decide, h4⟩

/-- C8: for fixed page geometry (fixed content area), the division-strategy
target of calculatePageCountFromContent is monotone in the measured
content height. -/
theorem C8_division_target_monotone (o : PageOpts) (hh fh : ℚ)
    (h1 h2 : ℚ) (hle : h1 ≤ h2) :
    PaginationV0.calculatePageCountFromContent h1 o hh fh ≤
      PaginationV0.calculatePageCountFromContent h2 o hh fh := by
  unfold PaginationV0.calculatePageCountFromContent
  split_ifs with h
  · exact le_refl 1
  · push_neg at h
    have harea : (0 : ℚ) < contentAreaHeight o hh fh := by linarith
    exact max_le_max le_rfl
      (Int.ceil_le_ceil ((div_le_div_iff_of_pos_right harea).mpr hle))

/-- C8 witness: monotonicity instantiated on the default geometry at
measured heights 100 and 2000. -/
theorem C8_witness :
    (100 : ℚ) ≤ 2000 ∧
    PaginationV0.calculatePageCountFromContent 100 cfg800 0 0 ≤
      PaginationV0.calculatePageCountFromContent 2000 cfg800 0 0 := by
  exact ⟨by norm_num, C8_division_target_monotone cfg800 0 0 100 2000 (by norm_num)⟩

/-- C9: the claim asks for per-session stabilization state, but the code
keeps it in the process-wide singleton window.__pp_state (getState,
part_001 lines 1146-1165, takes no session parameter; likewise the
module-level globals globalIterationCount / globalBaseContentHeight at
part_001 lines 74-76 and window.__paginationDebug in
src/src/PaginationPlus.ts).  In the embedding this is visible as every
session's call reading the same PPState: when session A has locked the
shared state at page count 7, a call made for session B (whose document
would measure to a single page, as the third conjunct shows for a fresh
state) also returns 7, frozen by A — cross-session interference. -/
theorem C9_shared_singleton_interference :
    (PaginationV1.calculatePageCount (PPState.mk 7 true 11 none) cfg800
        (PaginationV1.DomView.noPagination 60) 0 0).2 = 7 ∧
    (PaginationV1.viewUpdate (PPState.mk 7 true 11 none) cfg800
        (PaginationV1.DomView.noPagination 60)).2
      = PaginationV1.UpdateAction.bypass ∧
    (PaginationV1.calculatePageCount initState cfg800
        (PaginationV1.DomView.noPagination 60) 0 0).2 = 1 := by
  refine ⟨?_, ?_, ?_⟩
  · norm_num [PaginationV1.calculatePageCount]
  · norm_num [PaginationV1.viewUpdate]
  · norm_num [PaginationV1.calculatePageCount, PaginationV1.setCount,
      PaginationV1.MAX_PAGES, contentAreaHeight, pageHeaderReserved,
      pageFooterReserved, cfg800, initState, ceil_3_37]

/-- C10: calling updateHeaderContent or updateFooterContent with page
number 0 falls into the falsy branch of the JS truthiness guard
if (pageNumber), so it updates the document-wide default text slots and
leaves the per-page override map untouched; and for every argument
combination both commands return true. -/
theorem C10_page_zero_updates_defaults (o : PaginationCmd.CmdOptions)
    (l r : String) (c : Option String) (p : Option ℕ) :
    ((PaginationCmd.updateHeaderContent o l r c (some 0)).1.headerLeft = l ∧
      (PaginationCmd.updateHeaderContent o l r c (some 0)).1.headerRight = r ∧
      (PaginationCmd.updateHeaderContent o l r c (some 0)).1.headerCenter = c.getD "" ∧
      (PaginationCmd.updateHeaderContent o l r c (some 0)).1.customHeader = o.customHeader) ∧
    ((PaginationCmd.updateFooterContent o l r c (some 0)).1.footerLeft = l ∧
      (PaginationCmd.updateFooterContent o l r c (some 0)).1.footerRight = r ∧
      (PaginationCmd.updateFooterContent o l r c (some 0)).1.footerCenter = c.getD "" ∧
      (PaginationCmd.updateFooterContent o l r c (some 0)).1.customFooter = o.customFooter) ∧
    (PaginationCmd.updateHeaderContent o l r c p).2 = true ∧
    (PaginationCmd.updateFooterContent o l r c p).2 = true := by
  refine ⟨⟨rfl, rfl, rfl, rfl⟩, ⟨rfl, rfl, rfl, rfl⟩, ?_, ?_⟩
  · rcases p with _ | n
    · rfl
    · by_cases hn : n = 0 <;>
        simp [PaginationCmd.updateHeaderContent, hn]
  · rcases p with _ | n
    · rfl
    · by_cases hn : n = 0 <;>
        simp [PaginationCmd.updateFooterContent, hn]
